import Mathlib

/-!
Shallow embedding of the centrifugal pump sizing engine
(`netlify/functions/pump.js`) of the murphycurves-website repository.

Modelling conventions:
* JavaScript numbers are modelled by real numbers `ℝ`.  `Math.pow` with a
  fractional literal exponent is modelled by `Real.rpow` (they agree on the
  nonnegative bases arising here); `Math.pow` with an integer literal
  exponent (the polynomial monomials) is modelled by monomial powers `x ^ k`.
* `Math.log10` is `Real.logb 10`, `Math.exp` is `Real.exp`,
  `Math.sqrt` is `Real.sqrt`, `Math.PI` is `Real.pi`.
* `Number.prototype.toFixed(d)` followed by unary `+` is modelled by
  decimal rounding `round (x * 10^d) / 10^d`.
* The JavaScript expression `x || 0.01` on numbers substitutes `0.01` for a
  falsy (`0`) value; it is modelled by `jsOr` below (`NaN`, the other falsy
  number, has no counterpart in `ℝ`).
* The request payload, whose fields may be absent or non-numeric, is
  modelled by `JsValue`; the validation loop of the handler is unrolled
  over the eight fields in the source's object-entry order.
-/

namespace Pump

noncomputable section

/-- A JavaScript value as seen by the validation loop: a finite number, one
of the non-finite numbers (`NaN`, `±Infinity`), a missing (`undefined`)
field, or a value of some other type. -/
inductive JsValue where
  | num (x : ℝ)
  | nan
  | posInf
  | negInf
  | undef
  | nonNumber
deriving DecidableEq

/-- `typeof v === "number" && !Number.isNaN(v) && Number.isFinite(v)`:
exactly the finite-number constructor passes the handler's check. -/
def JsValue.isNum : JsValue → Bool
  | .num _ => true
  | _ => false

/-- Numeric content of a payload field (meaningful only after validation). -/
def JsValue.toReal : JsValue → ℝ
  | .num x => x
  | _ => 0

/-- The parsed request payload: keys `n,q,tdhm,npsha,suctype,sg,
num_impellers,viscosity` of the JSON body. -/
structure Payload where
  n : JsValue
  q : JsValue
  tdhm : JsValue
  npsha : JsValue
  suctype : JsValue
  sg : JsValue
  num_impellers : JsValue
  viscosity : JsValue

/-- The validation loop `for (const [k, v] of Object.entries(numbers))`,
unrolled in object-entry order; returns the key of the first field that is
missing, non-numeric, `NaN` or infinite, and `none` when all eight fields
are finite numbers. -/
def firstInvalid (p : Payload) : Option String :=
  if !p.n.isNum then some "N"
  else if !p.q.isNum then some "Q"
  else if !p.tdhm.isNum then some "TDHm"
  else if !p.npsha.isNum then some "NPSHA"
  else if !p.suctype.isNum then some "SucType"
  else if !p.sg.isNum then some "SG"
  else if !p.num_impellers.isNum then some "NumImpellers"
  else if !p.viscosity.isNum then some "Viscosity"
  else none

/-- A validated pump request: the eight numeric fields. -/
structure PumpInput where
  n : ℝ
  q : ℝ
  tdhm : ℝ
  npsha : ℝ
  suctype : ℝ
  sg : ℝ
  num_impellers : ℝ
  viscosity : ℝ

/-- Extraction of the numeric fields after successful validation. -/
def toInput (p : Payload) : PumpInput :=
  { n := p.n.toReal
    q := p.q.toReal
    tdhm := p.tdhm.toReal
    npsha := p.npsha.toReal
    suctype := p.suctype.toReal
    sg := p.sg.toReal
    num_impellers := p.num_impellers.toReal
    viscosity := p.viscosity.toReal }

/-- `const HeadStage = TDHm / NumImpellers`. -/
def headStage (inp : PumpInput) : ℝ := inp.tdhm / inp.num_impellers

/-- `const AngVel = (Math.PI / 30) * N`. -/
def angVel (inp : PumpInput) : ℝ := (Real.pi / 30) * inp.n

/-- `const Ns = N * Math.pow(Q / 3600, 0.5) / Math.pow(HeadStage, 0.75)`. -/
def ns (inp : PumpInput) : ℝ :=
  inp.n * (inp.q / 3600) ^ (0.5 : ℝ) / (headStage inp) ^ (0.75 : ℝ)

/-- `const Uns = Ns / 52.919`. -/
def uns (inp : PumpInput) : ℝ := ns inp / 52.919

/-- `const Nss = N * Math.pow((Q / SucType) / 3600, 0.5) / Math.pow(NPSHA, 0.75)`. -/
def nss (inp : PumpInput) : ℝ :=
  inp.n * ((inp.q / inp.suctype) / 3600) ^ (0.5 : ℝ) / inp.npsha ^ (0.75 : ℝ)

/-- `const UNss = Nss / 52.919`. -/
def unss (inp : PumpInput) : ℝ := nss inp / 52.919

/-- The flow-coefficient branch:
`if (Uns > 1) Phi = 0.4 / Math.pow(Uns, 0.5); else Phi = 0.4 / Math.pow(Uns, 0.25)`. -/
def Phi (Uns : ℝ) : ℝ :=
  if Uns > 1 then 0.4 / Uns ^ (0.5 : ℝ) else 0.4 / Uns ^ (0.25 : ℝ)

/-- `const r2 = (1 / AngVel) * Math.sqrt(9.81 * HeadStage / Phi)`. -/
def r2 (inp : PumpInput) : ℝ :=
  (1 / angVel inp) * Real.sqrt (9.81 * headStage inp / Phi (uns inp))

/-- `const ImpDia = r2 * 2 * 1000`. -/
def impDia (inp : PumpInput) : ℝ := r2 inp * 2 * 1000

/-- `const U2 = AngVel * (ImpDia / 2 / 1000)`. -/
def u2 (inp : PumpInput) : ℝ := angVel inp * (impDia inp / 2 / 1000)

/-- `const Qus = Q * 4.402867`. -/
def qus (inp : PumpInput) : ℝ := inp.q * 4.402867

/-- `const Nus = Ns * 51.66`. -/
def nus (inp : PumpInput) : ℝ := ns inp * 51.66

/-- The baseline efficiency regression, with the multistage penalty folded
in (`let Eff = 0.94 - (0.08955 * Math.pow(Qus / N, -0.2133)) -
(0.29 * Math.pow(Math.log10(2286 / Nus), 2)); Eff -= 0.005 * (NumImpellers - 1)`). -/
def eff (inp : PumpInput) : ℝ :=
  0.94 - 0.08955 * (qus inp / inp.n) ^ (-0.2133 : ℝ)
    - 0.29 * (Real.logb 10 (2286 / nus inp)) ^ 2
    - 0.005 * (inp.num_impellers - 1)

/-- `const kW = (Q * TDHm * SG) / (367.63 * Eff)`: the baseline hydraulic
power, dividing by the raw (unclamped) efficiency. -/
def kW (inp : PumpInput) : ℝ :=
  (inp.q * inp.tdhm * inp.sg) / (367.63 * eff inp)

/-- `const Re = Math.pow((Q / SucType) / 3600, 0.5) * Math.pow(9.81 * HeadStage, 0.25) / (Viscosity * 1e-6)`. -/
def re (inp : PumpInput) : ℝ :=
  ((inp.q / inp.suctype) / 3600) ^ (0.5 : ℝ) * (9.81 * headStage inp) ^ (0.25 : ℝ)
    / (inp.viscosity * 1e-6)

/-- Result record of `calculateViscousCorrection`. -/
structure Viscous where
  cq : ℝ
  ch : ℝ
  ce : ℝ

/-- `calculateViscousCorrection(Re)`: exponential-regression head and
efficiency correction factors; the flow factor is fixed at `1.0`. -/
def calculateViscousCorrection (Re : ℝ) : Viscous :=
  let ch_a : ℝ := 1.004
  let ch_b : ℝ := 1.391
  let ch_c : ℝ := 0.394
  let ch_d : ℝ := 0.233
  let ce_a : ℝ := 1.016
  let ce_b : ℝ := 2.848
  let ce_c : ℝ := 0.369
  let ce_d : ℝ := 0.204
  let Ch := ch_a - ch_b * Real.exp (-ch_c * Re ^ ch_d)
  let Ce := ce_a - ce_b * Real.exp (-ce_c * Re ^ ce_d)
  let Cq : ℝ := 1.0
  { cq := Cq, ch := Ch, ce := Ce }

/-- The seven specific-speed classification bands, named by the string keys
`"Ns1"`..`"Ns7"` the source assigns to `Nstatus`. -/
inductive Band where
  | Ns1
  | Ns2
  | Ns3
  | Ns4
  | Ns5
  | Ns6
  | Ns7
deriving DecidableEq

/-- The `Nstatus` branch chain:
`if (Ns > 175) "Ns7" else if (Ns > 100) "Ns6" else if (Ns > 80) "Ns5"
else if (Ns > 60) "Ns4" else if (Ns > 40) "Ns3" else if (Ns > 20) "Ns2"
else "Ns1"`. -/
def nsStatusOf (Ns : ℝ) : Band :=
  if Ns > 175 then .Ns7
  else if Ns > 100 then .Ns6
  else if Ns > 80 then .Ns5
  else if Ns > 60 then .Ns4
  else if Ns > 40 then .Ns3
  else if Ns > 20 then .Ns2
  else .Ns1

/-- The `statusText` assigned alongside each `Nstatus` value. -/
def statusTextOf : Band → String
  | .Ns7 => "Very High Ns"
  | .Ns6 => "High Ns"
  | .Ns5 => "Medium-High Ns"
  | .Ns4 => "Medium Ns"
  | .Ns3 => "Medium-Low Ns"
  | .Ns2 => "Low Ns"
  | .Ns1 => "Very Low Ns"

/-- One entry of the `warnings` array. -/
structure Warning where
  text : String
  critical : Bool
deriving DecidableEq

/-- `generateWarnings(Ns, U2, NPSHA, Nss)`: the pushes of the source loop,
in order. -/
def generateWarnings (Ns U2 NPSHA Nss : ℝ) : List Warning :=
  (if Ns < 20 then [⟨"Ns is too low!", true⟩]
   else if Ns > 250 then [⟨"Ns is too high - cannot build this pump", true⟩]
   else [])
  ++ (if U2 > 55 then [⟨"Tip speed too high for dirty service", true⟩] else [])
  ++ (if NPSHA > 10 then [⟨"You have more NPSHA than needed", false⟩] else [])
  ++ (if Nss > 213 then [⟨"Suction specific speed (Nss) is too high", true⟩]
      else if Nss < 50 then [⟨"Suction specific speed (Nss) is very low", false⟩]
      else [])

/-- One row (`a..f`) of the proprietary curve-coefficient tables. -/
structure Poly5 where
  a : ℝ
  b : ℝ
  c : ℝ
  d : ℝ
  e : ℝ
  f : ℝ

/-- `curveCoefficients.head`. -/
def headCoefficients : Band → Poly5
  | .Ns1 => ⟨120.8, -0.21384782, 0.010905096, -0.00021595602, 1.3648307e-06, -2.8993229e-09⟩
  | .Ns2 => ⟨142, -0.223337, -0.0055263614, 0.00018385812, -2.3572357e-06, 8.7462759e-09⟩
  | .Ns3 => ⟨160, -0.40244256, -0.0057075647, 0.00014007848, -1.5704207e-06, 5.4283494e-09⟩
  | .Ns4 => ⟨175, -0.56557259, -0.0068800616, 0.00019610839, -2.3296197e-06, 8.7211455e-09⟩
  | .Ns5 => ⟨185, -1.4234848, 0.015568182, 0.00015742424, -4.6181818e-06, 2.0606061e-08⟩
  | .Ns6 => ⟨225, -1.2501499, -0.068654179, 0.0024996503, -2.7729337e-05, 9.5984016e-08⟩
  | .Ns7 => ⟨380, -4.3295704, -0.11964691, 0.0044487801, -4.5967011e-05, 1.4973471e-07⟩

/-- `curveCoefficients.efficiency`. -/
def efficiencyCoefficients : Band → Poly5
  | .Ns1 => ⟨0, 2.4445788, -0.014159341, -0.00012353846, 1.869011e-06, -6.6227106e-09⟩
  | .Ns2 => ⟨0, 2.2298868, -0.010668343, -9.6486402e-05, 1.1941303e-06, -3.9231879e-09⟩
  | .Ns3 => ⟨0, 2.5249317, -0.032144311, 0.00039017405, -3.1181796e-06, 9.0593851e-09⟩
  | .Ns4 => ⟨0, 2.2583217, -0.023349029, 0.00024363947, -1.8396892e-06, 4.7987568e-09⟩
  | .Ns5 => ⟨0, 2.4710846, -0.032865937, 0.00046168625, -4.0147e-06, 1.2133467e-08⟩
  | .Ns6 => ⟨0, 1.7089419, -0.0089007132, 6.4419969e-05, -4.1622822e-07, -4.6842047e-10⟩
  | .Ns7 => ⟨0, 1.4879138, -0.0017261461, -0.00010420124, 1.4956333e-06, -7.6891997e-09⟩

/-- `curveCoefficients.npsh`. -/
def npshCoefficients : Band → Poly5
  | .Ns1 => ⟨48, 0.23681818, -0.014001515, 0.00039790909, -3.9684848e-06, 1.6727273e-08⟩
  | .Ns2 => ⟨72, 0.061821512, -0.015774015, 0.00034247242, -2.9996848e-06, 1.3705406e-08⟩
  | .Ns3 => ⟨98, -0.32168731, -0.034086057, 0.00083099627, -7.1443383e-06, 2.5846687e-08⟩
  | .Ns4 => ⟨120, -0.83951382, -0.011862737, 0.00035402331, -3.2840759e-06, 1.5696304e-08⟩
  | .Ns5 => ⟨186, -0.72372627, -0.050911699, 0.0011401943, -1.1171744e-05, 4.7246975e-08⟩
  | .Ns6 => ⟨403, -3.4442574, -0.063122994, 0.0019938438, -2.4935358e-05, 1.1723477e-07⟩
  | .Ns7 => ⟨1000, -6.9291126, -0.19079618, 0.0035209596, -3.6734776e-05, 1.8533911e-07⟩

/-- `lagrangianInterpolation(x, coefficients)`: the degree-5 polynomial
`a + b·x + c·x² + d·x³ + e·x⁴ + f·x⁵`. -/
def lagrangianInterpolation (x : ℝ) (c : Poly5) : ℝ :=
  c.a + c.b * x + c.c * x ^ 2 + c.d * x ^ 3 + c.e * x ^ 4 + c.f * x ^ 5

/-- `const flowPercentages = [0, 25, 50, 75, 100, 130]`. -/
def flowPercentages : Fin 6 → ℝ
  | 0 => 0
  | 1 => 25
  | 2 => 50
  | 3 => 75
  | 4 => 100
  | 5 => 130

/-- `const flowPoints = flowPercentages.map(p => p * Q / 100)`. -/
def flowPoints (Q : ℝ) (i : Fin 6) : ℝ := flowPercentages i * Q / 100

/-- The `headPoints` map: polynomial in the percentage, scaled by `TDHm / 100`. -/
def headPoints (nstat : Band) (TDHm : ℝ) (i : Fin 6) : ℝ :=
  lagrangianInterpolation (flowPercentages i) (headCoefficients nstat) * (TDHm / 100)

/-- The `efficiencyPoints` map: polynomial times `Eff`, clamped to `[0, 100]`
by `Math.max(0, Math.min(100, eff))`. -/
def efficiencyPoints (nstat : Band) (Eff : ℝ) (i : Fin 6) : ℝ :=
  max 0 (min 100 (lagrangianInterpolation (flowPercentages i) (efficiencyCoefficients nstat) * Eff))

/-- The `npshPoints` map: polynomial scaled by `NPSHA / 100`, clamped below at `0`. -/
def npshPoints (nstat : Band) (NPSHA : ℝ) (i : Fin 6) : ℝ :=
  max 0 (lagrangianInterpolation (flowPercentages i) (npshCoefficients nstat) * (NPSHA / 100))

/-- The JavaScript `x || d` idiom on numbers: `d` replaces a zero (falsy) `x`. -/
def jsOr (x d : ℝ) : ℝ := if x = 0 then d else x

/-- The `powerPoints` map: at a zero flow point, `0.9` times the power
expression evaluated at index 1 (the 25% point); otherwise the hydraulic
power at the point's own flow, head and (guarded) efficiency fraction. -/
def powerPoints (nstat : Band) (Q TDHm Eff SG : ℝ) (i : Fin 6) : ℝ :=
  if flowPoints Q i = 0 then
    0.9 * (flowPoints Q 1 * headPoints nstat TDHm 1 * SG
      / (367.63 * jsOr (efficiencyPoints nstat Eff 1 / 100) 0.01))
  else
    flowPoints Q i * headPoints nstat TDHm i * SG
      / (367.63 * jsOr (efficiencyPoints nstat Eff i / 100) 0.01)

/-- The object returned by `generatePerformanceData`. -/
structure PerfData where
  flowPoints : Fin 6 → ℝ
  headPoints : Fin 6 → ℝ
  efficiencyPoints : Fin 6 → ℝ
  npshPoints : Fin 6 → ℝ
  powerPoints : Fin 6 → ℝ
  flowPercentages : Fin 6 → ℝ

/-- `generatePerformanceData(Q, TDHm, Eff, NPSHA, Nstatus, SG)`. -/
def generatePerformanceData (Q TDHm Eff NPSHA : ℝ) (nstat : Band) (SG : ℝ) : PerfData :=
  { flowPoints := fun i => flowPoints Q i
    headPoints := fun i => headPoints nstat TDHm i
    efficiencyPoints := fun i => efficiencyPoints nstat Eff i
    npshPoints := fun i => npshPoints nstat NPSHA i
    powerPoints := fun i => powerPoints nstat Q TDHm Eff SG i
    flowPercentages := flowPercentages }

/-- The branch chain of `calculateNewPumpPerformance` computing
`newEfficiencyPercent` before clamping: a flat `-9.89` percentage-point
derate in the first (and fallback) branch, a degree-7 polynomial in `Ns`
(times 100) in the small-flow branch. -/
def newEfficiencyPercentRaw (Ns Q originalEff : ℝ) : ℝ :=
  if Q > 20 ∧ Q < 61 ∧ Ns < 20 then originalEff * 100 - 9.89
  else if Ns < 18 ∧ Q ≤ 20 then
    (-8.84553e-3 + 7.9485e-2 * Ns - 4.0913e-3 * Ns ^ 2 + 1.08499e-4 * Ns ^ 3
      - 1.40755e-6 * Ns ^ 4 + 5.4971e-9 * Ns ^ 5 + 4.07879e-11 * Ns ^ 6
      - 2.66217e-13 * Ns ^ 7) * 100
  else originalEff * 100 - 9.89

/-- `newEfficiencyPercent = Math.max(0, Math.min(100, newEfficiencyPercent))`. -/
def newEfficiencyPercent (Ns Q originalEff : ℝ) : ℝ :=
  max 0 (min 100 (newEfficiencyPercentRaw Ns Q originalEff))

/-- `const newHydPower = (Q * TDHm * SG) / (367.63 * (newEfficiencyPercent / 100))`:
no guard is applied to the divisor. -/
def newHydPower (Ns Q TDHm SG originalEff : ℝ) : ℝ :=
  (Q * TDHm * SG) / (367.63 * (newEfficiencyPercent Ns Q originalEff / 100))

/-- Decimal rounding model of `+x.toFixed(d)`. -/
def toFixed (d : ℕ) (x : ℝ) : ℝ := ((round (x * 10 ^ d) : ℤ) : ℝ) / 10 ^ d

/-- The object returned by `calculateNewPumpPerformance`. -/
structure NewPump where
  flow : ℝ
  head : ℝ
  ns : ℝ
  impdia : ℝ
  npsh : ℝ
  speed : ℝ
  efficiency : ℝ
  hydpower : ℝ

/-- `calculateNewPumpPerformance(Ns, Q, TDHm, ImpDia, NPSHA, N, SG, originalEff)`. -/
def calculateNewPumpPerformance (Ns Q TDHm ImpDia NPSHA N SG originalEff : ℝ) : NewPump :=
  { flow := toFixed 2 Q
    head := toFixed 2 TDHm
    ns := toFixed 2 Ns
    impdia := toFixed 2 ImpDia
    npsh := toFixed 2 NPSHA
    speed := toFixed 0 N
    efficiency := toFixed 2 (newEfficiencyPercent Ns Q originalEff)
    hydpower := toFixed 2 (newHydPower Ns Q TDHm SG originalEff) }

/-- The `result` object assembled by the handler. -/
structure Result where
  efficiency : ℝ
  uns : ℝ
  ns : ℝ
  unss : ℝ
  nss : ℝ
  phi : ℝ
  angvel : ℝ
  tipspeed : ℝ
  impdia : ℝ
  headstage : ℝ
  hydpower : ℝ
  reynolds : ℝ
  cq : ℝ
  ch : ℝ
  ce : ℝ
  nstatus : Band
  statusText : String
  warnings : List Warning
  performanceData : PerfData
  newPumpPerformance : Option NewPump

/-- The computation pipeline of the handler on a validated input, assembling
the `result` object (the alternate-pump branch is taken exactly under the
source's trigger `(Q > 20 && Q < 61 && Ns < 20) || (Ns < 18 && Q <= 20)`). -/
def sizePump (inp : PumpInput) : Result :=
  { efficiency := toFixed 2 (eff inp * 100)
    uns := toFixed 4 (uns inp)
    ns := toFixed 2 (ns inp)
    unss := toFixed 4 (unss inp)
    nss := toFixed 2 (nss inp)
    phi := toFixed 4 (Phi (uns inp))
    angvel := toFixed 2 (angVel inp)
    tipspeed := toFixed 2 (u2 inp)
    impdia := toFixed 2 (impDia inp)
    headstage := toFixed 1 (headStage inp)
    hydpower := toFixed 2 (kW inp)
    reynolds := toFixed 2 (re inp)
    cq := toFixed 2 (calculateViscousCorrection (re inp)).cq
    ch := toFixed 2 (calculateViscousCorrection (re inp)).ch
    ce := toFixed 2 (calculateViscousCorrection (re inp)).ce
    nstatus := nsStatusOf (ns inp)
    statusText := statusTextOf (nsStatusOf (ns inp))
    warnings := generateWarnings (ns inp) (u2 inp) inp.npsha (nss inp)
    performanceData := generatePerformanceData inp.q inp.tdhm (eff inp) inp.npsha (nsStatusOf (ns inp)) inp.sg
    newPumpPerformance :=
      if (inp.q > 20 ∧ inp.q < 61 ∧ ns inp < 20) ∨ (ns inp < 18 ∧ inp.q ≤ 20) then
        some (calculateNewPumpPerformance (ns inp) inp.q inp.tdhm (impDia inp)
          inp.npsha inp.n inp.sg (eff inp))
      else none }

/-- The handler on a parsed payload: a `400` validation rejection naming the
offending field, or the `200` result. -/
def handler (p : Payload) : Except String Result :=
  match firstInvalid p with
  | some k => .error ("Invalid or missing number for " ++ k)
  | none => .ok (sizePump (toInput p))

/-- Whether the handler accepted the payload (returned a `200` result). -/
def isAccepted : Except String Result → Bool
  | .ok _ => true
  | .error _ => false

/-- C1 counterexample payload: every field a finite number, `suctype = 3`. -/
def payloadSuctype3 : Payload :=
  { n := .num 1000, q := .num 100, tdhm := .num 50, npsha := .num 5
    suctype := .num 3, sg := .num 1, num_impellers := .num 1, viscosity := .num 1 }

/-- C4 counterexample input: its computed specific speed is exactly `100`. -/
def inpNs100 : PumpInput :=
  { n := 100, q := 3600, tdhm := 1, npsha := 5, suctype := 1, sg := 1
    num_impellers := 1, viscosity := 1 }

/-- A second threshold input: its computed specific speed is exactly `175`. -/
def inpNs175 : PumpInput :=
  { n := 175, q := 3600, tdhm := 1, npsha := 5, suctype := 1, sg := 1
    num_impellers := 1, viscosity := 1 }

/-- Speed used by the C2 counterexample pair: chosen so that at one impeller
`2286 / Nus = 10^31` exactly. -/
def speedC2 : ℝ := 2286000 / (51.66 * 10 ^ 31)

/-- C2 counterexample, single-stage variant. -/
def inpOneStage : PumpInput :=
  { n := speedC2, q := 3600, tdhm := 10000, npsha := 5, suctype := 1, sg := 1
    num_impellers := 1, viscosity := 1 }

/-- C2 counterexample, `10000`-stage variant (identical otherwise). -/
def inpManyStages : PumpInput :=
  { n := speedC2, q := 3600, tdhm := 10000, npsha := 5, suctype := 1, sg := 1
    num_impellers := 10000, viscosity := 1 }

/-- C2 amended-claim witness input, one stage over the full head. -/
def inpFixedStage1 : PumpInput :=
  { n := 100, q := 3600, tdhm := 1, npsha := 5, suctype := 1, sg := 1
    num_impellers := 1, viscosity := 1 }

/-- C2 amended-claim witness input, sixteen stages with the same
head-per-stage (hence the same `Nus`). -/
def inpFixedStage16 : PumpInput :=
  { n := 100, q := 3600, tdhm := 16, npsha := 5, suctype := 1, sg := 1
    num_impellers := 16, viscosity := 1 }

/-- C7 counterexample input: the `1000`-impeller penalty drives the raw
efficiency regression negative, so every nonzero curve efficiency clamps
to `0`. -/
def inpNegEff : PumpInput :=
  { n := 3000, q := 3600, tdhm := 1000, npsha := 5, suctype := 1, sg := 1
    num_impellers := 1000, viscosity := 1 }

/-- C10 witness input: small flow and tiny specific speed, so the degree-7
polynomial of the alternate-pump branch is negative and the new efficiency
clamps to exactly `0`. -/
def inpTinyNs : PumpInput :=
  { n := 2, q := 9, tdhm := 1, npsha := 4, suctype := 1, sg := 1
    num_impellers := 1, viscosity := 1 }

end

end Pump

namespace Pump

/-- C1 (amended): the handler accepts a payload exactly when all eight
required fields are finite numbers; no membership check on `suctype` is
performed. -/
theorem c1_validation_exactly_numeric (p : Payload) :
    isAccepted (handler p) = true ↔
      (p.n.isNum ∧ p.q.isNum ∧ p.tdhm.isNum ∧ p.npsha.isNum ∧
       p.suctype.isNum ∧ p.sg.isNum ∧ p.num_impellers.isNum ∧ p.viscosity.isNum) := by
  unfold handler firstInvalid
  split_ifs with h1 h2 h3 h4 h5 h6 h7 h8 <;> simp_all [isAccepted]

/-- C1 counterexample: a payload whose fields are all finite numbers but
with `suctype = 3` passes validation and is processed, contradicting the
claim that it is rejected with a `ValidationError`. -/
theorem c1_counterexample :
    firstInvalid payloadSuctype3 = none ∧ isAccepted (handler payloadSuctype3) = true :=
  ⟨rfl, rfl⟩

/-- C3: the alternate-pump estimate is present in the result exactly when
`(20 < flow < 61 and Ns < 20)` or `(Ns < 18 and flow ≤ 20)` for the
computed specific speed `Ns`. -/
theorem c3_alternate_pump_trigger (inp : PumpInput) :
    (sizePump inp).newPumpPerformance ≠ none ↔
      ((inp.q > 20 ∧ inp.q < 61 ∧ ns inp < 20) ∨ (ns inp < 18 ∧ inp.q ≤ 20)) := by
  unfold sizePump
  dsimp only
  split_ifs with h <;> simp [h]

/-- C5: the flow coefficient uses the `0.4 / Uns^0.5` branch for `Uns`
strictly greater than `1` and the `0.4 / Uns^0.25` branch for `Uns ≤ 1`;
at the boundary `Uns = 1` the else branch is taken (value `0.4`). -/
theorem c5_phi_branches (u : ℝ) :
    (1 < u → Phi u = 0.4 / u ^ (0.5 : ℝ)) ∧
    (u ≤ 1 → Phi u = 0.4 / u ^ (0.25 : ℝ)) ∧
    Phi 1 = 0.4 := by
  refine ⟨fun h => ?_, fun h => ?_, ?_⟩
  · unfold Phi
    rw [if_pos h]
  · unfold Phi
    rw [if_neg (by linarith : ¬ u > 1)]
  · unfold Phi
    rw [if_neg (by norm_num : ¬ (1 : ℝ) > 1), Real.one_rpow]
    norm_num

/-- C5 witness: the theorem applied just above and just below the boundary. -/
theorem c5_phi_branches_witness :
    Phi 4 = 0.4 / (4 : ℝ) ^ (0.5 : ℝ) ∧ Phi (1 / 2) = 0.4 / ((1 : ℝ) / 2) ^ (0.25 : ℝ) :=
  ⟨(c5_phi_branches 4).1 (by norm_num), (c5_phi_branches (1 / 2)).2.1 (by norm_num)⟩

/-- C6: two valid inputs that differ only in the `viscosity` field produce
results that agree on every field except `reynolds`, `ch` and `ce` (the
viscous factors are advisory; `cq` is constant, and nothing else reads the
Reynolds number). -/
theorem c6_viscosity_noninterference (p : PumpInput) (v1 v2 : ℝ) :
    (sizePump { p with viscosity := v1 }).efficiency = (sizePump { p with viscosity := v2 }).efficiency ∧
    (sizePump { p with viscosity := v1 }).uns = (sizePump { p with viscosity := v2 }).uns ∧
    (sizePump { p with viscosity := v1 }).ns = (sizePump { p with viscosity := v2 }).ns ∧
    (sizePump { p with viscosity := v1 }).unss = (sizePump { p with viscosity := v2 }).unss ∧
    (sizePump { p with viscosity := v1 }).nss = (sizePump { p with viscosity := v2 }).nss ∧
    (sizePump { p with viscosity := v1 }).phi = (sizePump { p with viscosity := v2 }).phi ∧
    (sizePump { p with viscosity := v1 }).angvel = (sizePump { p with viscosity := v2 }).angvel ∧
    (sizePump { p with viscosity := v1 }).tipspeed = (sizePump { p with viscosity := v2 }).tipspeed ∧
    (sizePump { p with viscosity := v1 }).impdia = (sizePump { p with viscosity := v2 }).impdia ∧
    (sizePump { p with viscosity := v1 }).headstage = (sizePump { p with viscosity := v2 }).headstage ∧
    (sizePump { p with viscosity := v1 }).hydpower = (sizePump { p with viscosity := v2 }).hydpower ∧
    (sizePump { p with viscosity := v1 }).cq = (sizePump { p with viscosity := v2 }).cq ∧
    (sizePump { p with viscosity := v1 }).nstatus = (sizePump { p with viscosity := v2 }).nstatus ∧
    (sizePump { p with viscosity := v1 }).statusText = (sizePump { p with viscosity := v2 }).statusText ∧
    (sizePump { p with viscosity := v1 }).warnings = (sizePump { p with viscosity := v2 }).warnings ∧
    (sizePump { p with viscosity := v1 }).performanceData = (sizePump { p with viscosity := v2 }).performanceData ∧
    (sizePump { p with viscosity := v1 }).newPumpPerformance = (sizePump { p with viscosity := v2 }).newPumpPerformance :=
  ⟨rfl, rfl, rfl, rfl, rfl, rfl, rfl, rfl, rfl, rfl, rfl, rfl, rfl, rfl, rfl, rfl, rfl⟩

/-- C8: the seven classification bands partition the whole real `Ns` line:
each band is assigned exactly on its half-open interval, with the
thresholds `20, 40, 60, 80, 100, 175` belonging to the band below. -/
theorem c8_band_partition (x : ℝ) :
    (nsStatusOf x = .Ns1 ↔ x ≤ 20) ∧
    (nsStatusOf x = .Ns2 ↔ 20 < x ∧ x ≤ 40) ∧
    (nsStatusOf x = .Ns3 ↔ 40 < x ∧ x ≤ 60) ∧
    (nsStatusOf x = .Ns4 ↔ 60 < x ∧ x ≤ 80) ∧
    (nsStatusOf x = .Ns5 ↔ 80 < x ∧ x ≤ 100) ∧
    (nsStatusOf x = .Ns6 ↔ 100 < x ∧ x ≤ 175) ∧
    (nsStatusOf x = .Ns7 ↔ 175 < x) := by
  unfold nsStatusOf
  split_ifs with h1 h2 h3 h4 h5 h6 <;>
    refine ⟨?_, ?_, ?_, ?_, ?_, ?_, ?_⟩ <;> simp <;>
    first
      | linarith
      | (constructor <;> linarith)
      | (intro h; linarith)

end Pump

namespace Pump

/-- Evaluation rule for a real power of a perfect natural power. -/
theorem rpow_of_pow_eq (c : ℝ) (hc : 0 ≤ c) (k : ℕ) (r : ℝ) :
    (c ^ k : ℝ) ^ r = c ^ ((k : ℝ) * r) := by
  rw [← Real.rpow_natCast c k, ← Real.rpow_mul hc]

/-- `10000 ^ 0.75 = 1000` (as real powers). -/
theorem rpow_10000_075 : (10000 : ℝ) ^ (0.75 : ℝ) = 1000 := by
  rw [show (10000 : ℝ) = 10 ^ (4 : ℕ) by norm_num,
    rpow_of_pow_eq 10 (by norm_num) 4 0.75,
    show ((4 : ℕ) : ℝ) * 0.75 = ((3 : ℕ) : ℝ) by norm_num,
    Real.rpow_natCast]
  norm_num

/-- `(9/3600) ^ 0.5 = 1/20` (as real powers). -/
theorem rpow_9_3600_05 : ((9 : ℝ) / 3600) ^ (0.5 : ℝ) = 1 / 20 := by
  rw [show (9 : ℝ) / 3600 = (1 / 20 : ℝ) ^ (2 : ℕ) by norm_num,
    rpow_of_pow_eq (1 / 20) (by norm_num) 2 0.5,
    show ((2 : ℕ) : ℝ) * 0.5 = ((1 : ℕ) : ℝ) by norm_num,
    Real.rpow_natCast]
  norm_num

/-- The computed specific speed of `inpNs100` is exactly `100`. -/
theorem ns_inpNs100_eq : ns inpNs100 = 100 := by
  unfold ns headStage inpNs100
  norm_num [Real.one_rpow]

/-- The computed specific speed of `inpNs175` is exactly `175`. -/
theorem ns_inpNs175_eq : ns inpNs175 = 175 := by
  unfold ns headStage inpNs175
  norm_num [Real.one_rpow]

/-- C4 counterexample: the input `inpNs100` has computed `Ns = 100`, yet the
assigned band is `Ns5` (Medium-High), not the band beginning at `100`
(`Ns6`, High) the claim requires. -/
theorem c4_counterexample :
    ns inpNs100 = 100 ∧ (sizePump inpNs100).nstatus = Band.Ns5 ∧ Band.Ns5 ≠ Band.Ns6 := by
  refine ⟨ns_inpNs100_eq, ?_, by decide⟩
  show nsStatusOf (ns inpNs100) = Band.Ns5
  rw [ns_inpNs100_eq]
  unfold nsStatusOf
  norm_num

/-- C4 (amended): the band thresholds are exclusive at the lower bound and
inclusive at the upper bound: an input whose computed `Ns` equals a
threshold value is assigned the band whose range ends at that threshold. -/
theorem c4_threshold_assigns_lower_band (inp : PumpInput) :
    (ns inp = 20 → (sizePump inp).nstatus = Band.Ns1) ∧
    (ns inp = 40 → (sizePump inp).nstatus = Band.Ns2) ∧
    (ns inp = 60 → (sizePump inp).nstatus = Band.Ns3) ∧
    (ns inp = 80 → (sizePump inp).nstatus = Band.Ns4) ∧
    (ns inp = 100 → (sizePump inp).nstatus = Band.Ns5) ∧
    (ns inp = 175 → (sizePump inp).nstatus = Band.Ns6) := by
  refine ⟨fun h => ?_, fun h => ?_, fun h => ?_, fun h => ?_, fun h => ?_, fun h => ?_⟩ <;>
    (show nsStatusOf (ns inp) = _
     rw [h]
     unfold nsStatusOf
     norm_num)

/-- C4 witness: the amended theorem applied at inputs whose specific speeds
hit the thresholds `100` and `175` exactly. -/
theorem c4_threshold_assigns_lower_band_witness :
    (sizePump inpNs100).nstatus = Band.Ns5 ∧ (sizePump inpNs175).nstatus = Band.Ns6 :=
  ⟨(c4_threshold_assigns_lower_band inpNs100).2.2.2.2.1 ns_inpNs100_eq,
   (c4_threshold_assigns_lower_band inpNs175).2.2.2.2.2 ns_inpNs175_eq⟩

/-- At one impeller the C2 input's specific speed is `speedC2 / 1000`. -/
theorem ns_inpOneStage_eq : ns inpOneStage = speedC2 / 1000 := by
  unfold ns headStage inpOneStage
  rw [show (3600 : ℝ) / 3600 = 1 by norm_num, Real.one_rpow,
    show (10000 : ℝ) / 1 = 10000 by norm_num, rpow_10000_075]
  ring

/-- At `10000` impellers the C2 input's specific speed is `speedC2` itself. -/
theorem ns_inpManyStages_eq : ns inpManyStages = speedC2 := by
  unfold ns headStage inpManyStages
  rw [show (3600 : ℝ) / 3600 = 1 by norm_num, Real.one_rpow,
    show (10000 : ℝ) / 10000 = 1 by norm_num, Real.one_rpow]
  ring

/-- The log term of the C2 single-stage input evaluates to `31`. -/
theorem logb_inpOneStage_eq : Real.logb 10 (2286 / nus inpOneStage) = 31 := by
  have harg : 2286 / nus inpOneStage = (10 : ℝ) ^ (31 : ℕ) := by
    rw [nus, ns_inpOneStage_eq]
    unfold speedC2
    norm_num
  rw [harg, ← Real.rpow_natCast 10 31]
  rw [Real.logb_rpow (by norm_num) (by norm_num)]
  norm_num

/-- The log term of the C2 many-stage input evaluates to `28`. -/
theorem logb_inpManyStages_eq : Real.logb 10 (2286 / nus inpManyStages) = 28 := by
  have harg : 2286 / nus inpManyStages = (10 : ℝ) ^ (28 : ℕ) := by
    rw [nus, ns_inpManyStages_eq]
    unfold speedC2
    norm_num
  rw [harg, ← Real.rpow_natCast 10 28]
  rw [Real.logb_rpow (by norm_num) (by norm_num)]
  norm_num

/-- C2 counterexample: two valid inputs identical except for the stage
count (`1` vs `10000`) for which the baseline efficiency after the
multistage penalty is strictly larger at the larger stage count: the gain
in the `log10(2286/Nus)²` term (driven by `Nus` growing with the stage
count) outweighs the `0.005·(numImpellers−1)` penalty. -/
theorem c2_counterexample : eff inpOneStage < eff inpManyStages := by
  unfold eff
  rw [logb_inpOneStage_eq, logb_inpManyStages_eq]
  have hq : qus inpOneStage / inpOneStage.n = qus inpManyStages / inpManyStages.n := rfl
  rw [hq]
  have him1 : inpOneStage.num_impellers = 1 := rfl
  have him2 : inpManyStages.num_impellers = 10000 := rfl
  rw [him1, him2]
  have h31 : ((31 : ℝ)) ^ 2 = 961 := by norm_num
  have h28 : ((28 : ℝ)) ^ 2 = 784 := by norm_num
  rw [h31, h28]
  linarith

/-- C2 (amended): with speed, flow and `Nus` (equivalently head-per-stage)
held fixed, the efficiency after the multistage penalty is monotonically
non-increasing in the stage count; the original claim fails because `Nus`
itself grows with `numImpellers` (see the counterexample). -/
theorem c2_eff_antitone_fixed_nus (i1 i2 : PumpInput) (hn : i1.n = i2.n) (hq : i1.q = i2.q)
    (hnus : nus i1 = nus i2) (hk : i1.num_impellers ≤ i2.num_impellers) :
    eff i2 ≤ eff i1 := by
  unfold eff qus
  rw [hq, hn, hnus]
  linarith

/-- C2 witness: one stage over head `1` versus sixteen stages over head
`16` — the same head per stage, hence the same `Nus`. -/
theorem c2_eff_antitone_fixed_nus_witness : eff inpFixedStage16 ≤ eff inpFixedStage1 :=
  c2_eff_antitone_fixed_nus inpFixedStage1 inpFixedStage16 rfl rfl
    (by unfold nus ns headStage inpFixedStage1 inpFixedStage16; norm_num)
    (by show (1 : ℝ) ≤ 16; norm_num)

end Pump

namespace Pump

/-- The nonzero flow fractions are positive. -/
theorem flowPercentages_pos (i : Fin 6) (hi : i ≠ 0) : 0 < flowPercentages i := by
  fin_cases i
  · exact absurd rfl hi
  · show (0 : ℝ) < 25
    norm_num
  · show (0 : ℝ) < 50
    norm_num
  · show (0 : ℝ) < 75
    norm_num
  · show (0 : ℝ) < 100
    norm_num
  · show (0 : ℝ) < 130
    norm_num

/-- The computed specific speed of `inpNegEff` is exactly `3000`. -/
theorem ns_inpNegEff_eq : ns inpNegEff = 3000 := by
  unfold ns headStage inpNegEff
  norm_num [Real.one_rpow]

/-- `inpNegEff` is classified in the top band `Ns7`. -/
theorem band_inpNegEff : nsStatusOf (ns inpNegEff) = Band.Ns7 := by
  rw [ns_inpNegEff_eq]
  unfold nsStatusOf
  norm_num

/-- The raw efficiency regression at `inpNegEff` is negative: the `1000`
impeller penalty (`4.995`) dominates the `0.94` base while the other two
terms only subtract further. -/
theorem eff_inpNegEff_neg : eff inpNegEff < 0 := by
  unfold eff
  have hA : 0 < 0.08955 * (qus inpNegEff / inpNegEff.n) ^ (-0.2133 : ℝ) := by
    refine mul_pos (by norm_num) (Real.rpow_pos_of_pos ?_ _)
    show (0 : ℝ) < 3600 * 4.402867 / 3000
    norm_num
  have hB : 0 ≤ 0.29 * (Real.logb 10 (2286 / nus inpNegEff)) ^ 2 := by positivity
  rw [show inpNegEff.num_impellers = (1000 : ℝ) from rfl]
  linarith

/-- At `inpNegEff` the 100%-flow curve efficiency clamps to exactly `0`:
the (positive) polynomial value times the negative raw efficiency is
negative, and `Math.max(0, Math.min(100, ·))` sends it to `0`. -/
theorem effPt_inpNegEff : efficiencyPoints Band.Ns7 (eff inpNegEff) 4 = 0 := by
  unfold efficiencyPoints
  rw [show flowPercentages (4 : Fin 6) = 100 from rfl]
  have hl : 0 < lagrangianInterpolation 100 (efficiencyCoefficients Band.Ns7) := by
    unfold lagrangianInterpolation
    norm_num [efficiencyCoefficients]
  have hprod : lagrangianInterpolation 100 (efficiencyCoefficients Band.Ns7) * eff inpNegEff < 0 :=
    mul_neg_of_pos_of_neg hl eff_inpNegEff_neg
  rw [min_eq_right (by linarith :
    lagrangianInterpolation 100 (efficiencyCoefficients Band.Ns7) * eff inpNegEff ≤ 100)]
  exact max_eq_left (le_of_lt hprod)

/-- The 100%-flow head point of `inpNegEff` is positive. -/
theorem headPt_inpNegEff_pos : 0 < headPoints Band.Ns7 inpNegEff.tdhm 4 := by
  unfold headPoints lagrangianInterpolation
  rw [show flowPercentages (4 : Fin 6) = 100 from rfl,
    show inpNegEff.tdhm = (1000 : ℝ) from rfl]
  norm_num [headCoefficients]

/-- C7 counterexample: at `inpNegEff` (valid, flow `3600 > 0`) the
100%-flow power point does not equal the claimed formula
`flow·head·SG / (367.63 · eff)` with that point's clamped efficiency
fraction: the fraction is `0`, the code divides by the substituted
`367.63 · 0.01` instead and returns a positive value. -/
theorem c7_counterexample :
    (sizePump inpNegEff).performanceData.powerPoints 4 ≠
      flowPoints inpNegEff.q 4 * headPoints (nsStatusOf (ns inpNegEff)) inpNegEff.tdhm 4 * inpNegEff.sg
        / (367.63 * (efficiencyPoints (nsStatusOf (ns inpNegEff)) (eff inpNegEff) 4 / 100)) := by
  show powerPoints (nsStatusOf (ns inpNegEff)) inpNegEff.q inpNegEff.tdhm (eff inpNegEff) inpNegEff.sg 4 ≠ _
  rw [band_inpNegEff, effPt_inpNegEff]
  unfold powerPoints
  have hflow : flowPoints inpNegEff.q (4 : Fin 6) = 3600 := by
    unfold flowPoints
    rw [show flowPercentages (4 : Fin 6) = 100 from rfl,
      show inpNegEff.q = (3600 : ℝ) from rfl]
    norm_num
  rw [if_neg (by rw [hflow]; norm_num)]
  rw [effPt_inpNegEff, hflow]
  rw [show jsOr ((0 : ℝ) / 100) 0.01 = 0.01 by unfold jsOr; norm_num]
  rw [show inpNegEff.sg = (1 : ℝ) from rfl]
  rw [show (367.63 : ℝ) * (0 / 100) = 0 by norm_num, div_zero]
  refine ne_of_gt (div_pos ?_ (by norm_num))
  nlinarith [headPt_inpNegEff_pos]

/-- C7 (amended): for every input with positive flow, each power point at a
nonzero flow fraction equals the hydraulic-power formula at that point's
own flow, head and clamped efficiency fraction with the `|| 0.01` guard
substituting `0.01` for a zero fraction, and the zero-flow point's power is
exactly `0.9` times the 25%-flow point's power. -/
theorem c7_power_points (inp : PumpInput) (hq : 0 < inp.q) :
    (∀ i : Fin 6, i ≠ 0 →
      (sizePump inp).performanceData.powerPoints i =
        flowPoints inp.q i * headPoints (nsStatusOf (ns inp)) inp.tdhm i * inp.sg
          / (367.63 * jsOr (efficiencyPoints (nsStatusOf (ns inp)) (eff inp) i / 100) 0.01)) ∧
    (sizePump inp).performanceData.powerPoints 0 =
      0.9 * (sizePump inp).performanceData.powerPoints 1 := by
  have hfz : ∀ i : Fin 6, i ≠ 0 → flowPoints inp.q i ≠ 0 := by
    intro i hi
    unfold flowPoints
    exact ne_of_gt (div_pos (mul_pos (flowPercentages_pos i hi) hq) (by norm_num))
  constructor
  · intro i hi
    show powerPoints (nsStatusOf (ns inp)) inp.q inp.tdhm (eff inp) inp.sg i = _
    unfold powerPoints
    rw [if_neg (hfz i hi)]
  · show powerPoints (nsStatusOf (ns inp)) inp.q inp.tdhm (eff inp) inp.sg 0 =
      0.9 * powerPoints (nsStatusOf (ns inp)) inp.q inp.tdhm (eff inp) inp.sg 1
    have h0 : flowPoints inp.q (0 : Fin 6) = 0 := by
      unfold flowPoints
      rw [show flowPercentages (0 : Fin 6) = 0 from rfl]
      norm_num
    unfold powerPoints
    rw [if_pos h0, if_neg (hfz 1 (by decide))]

/-- C7 witness: the amended theorem applied at `inpNegEff` (flow `3600`),
with the nonzero-fraction clause instantiated at the 100%-flow point. -/
theorem c7_power_points_witness :
    ((sizePump inpNegEff).performanceData.powerPoints 4 =
      flowPoints inpNegEff.q 4 * headPoints (nsStatusOf (ns inpNegEff)) inpNegEff.tdhm 4 * inpNegEff.sg
        / (367.63 * jsOr (efficiencyPoints (nsStatusOf (ns inpNegEff)) (eff inpNegEff) 4 / 100) 0.01)) ∧
    (sizePump inpNegEff).performanceData.powerPoints 0 =
      0.9 * (sizePump inpNegEff).performanceData.powerPoints 1 :=
  ⟨(c7_power_points inpNegEff (by norm_num : (0 : ℝ) < 3600)).1 4 (by decide),
   (c7_power_points inpNegEff (by norm_num : (0 : ℝ) < 3600)).2⟩

/-- C9: every performance-curve power divisor is guarded: the `|| 0.01`
substitution makes the divisor nonzero at every point (substituting `0.01`
exactly when the clamped efficiency fraction is `0`), while the baseline
hydraulic power `kW` divides by the raw unclamped efficiency with no
guard. -/
theorem c9_power_divisor_guarded (inp : PumpInput) (i : Fin 6) :
    jsOr (efficiencyPoints (nsStatusOf (ns inp)) (eff inp) i / 100) 0.01 ≠ 0 ∧
    (efficiencyPoints (nsStatusOf (ns inp)) (eff inp) i / 100 = 0 →
      jsOr (efficiencyPoints (nsStatusOf (ns inp)) (eff inp) i / 100) 0.01 = 0.01) ∧
    (flowPoints inp.q i ≠ 0 →
      (sizePump inp).performanceData.powerPoints i =
        flowPoints inp.q i * headPoints (nsStatusOf (ns inp)) inp.tdhm i * inp.sg
          / (367.63 * jsOr (efficiencyPoints (nsStatusOf (ns inp)) (eff inp) i / 100) 0.01)) ∧
    kW inp = inp.q * inp.tdhm * inp.sg / (367.63 * eff inp) := by
  refine ⟨?_, fun h => ?_, fun h => ?_, rfl⟩
  · unfold jsOr
    split_ifs with h
    · norm_num
    · exact h
  · unfold jsOr
    rw [if_pos h]
  · show powerPoints (nsStatusOf (ns inp)) inp.q inp.tdhm (eff inp) inp.sg i = _
    unfold powerPoints
    rw [if_neg h]

/-- C9 witness: at `inpNegEff` and the 100%-flow point the clamped
efficiency fraction is `0`, the guard substitutes `0.01`, and the power
point takes the guarded-formula form. -/
theorem c9_power_divisor_guarded_witness :
    jsOr (efficiencyPoints (nsStatusOf (ns inpNegEff)) (eff inpNegEff) 4 / 100) 0.01 = 0.01 ∧
    (sizePump inpNegEff).performanceData.powerPoints 4 =
      flowPoints inpNegEff.q 4 * headPoints (nsStatusOf (ns inpNegEff)) inpNegEff.tdhm 4 * inpNegEff.sg
        / (367.63 * jsOr (efficiencyPoints (nsStatusOf (ns inpNegEff)) (eff inpNegEff) 4 / 100) 0.01) :=
  ⟨(c9_power_divisor_guarded inpNegEff 4).2.1
     (by rw [band_inpNegEff, effPt_inpNegEff]; norm_num),
   (c9_power_divisor_guarded inpNegEff 4).2.2.1
     (by
       unfold flowPoints
       exact ne_of_gt (div_pos (mul_pos (flowPercentages_pos 4 (by decide))
         (by norm_num : (0 : ℝ) < 3600)) (by norm_num)))⟩

/-- The computed specific speed of `inpTinyNs` is exactly `1/10`. -/
theorem ns_inpTinyNs_eq : ns inpTinyNs = 1 / 10 := by
  unfold ns headStage inpTinyNs
  rw [rpow_9_3600_05, show (1 : ℝ) / 1 = 1 by norm_num, Real.one_rpow]
  norm_num

/-- C10: at the validated input `inpTinyNs` (flow `9 ≤ 20`, specific speed
`0.1 < 18`) the alternate-pump estimate is produced, its degree-7
polynomial evaluates negative so the new efficiency clamps to exactly `0`,
and the alternate hydraulic power divides the positive numerator
`Q·TDHm·SG` by the zero divisor `367.63 · (0/100)`: an unguarded division
by zero. -/
theorem c10_alternate_power_divide_by_zero :
    (sizePump inpTinyNs).newPumpPerformance.isSome = true ∧
    newEfficiencyPercent (ns inpTinyNs) inpTinyNs.q (eff inpTinyNs) = 0 ∧
    367.63 * (newEfficiencyPercent (ns inpTinyNs) inpTinyNs.q (eff inpTinyNs) / 100) = 0 ∧
    inpTinyNs.q * inpTinyNs.tdhm * inpTinyNs.sg ≠ 0 := by
  have heffp : newEfficiencyPercent (ns inpTinyNs) inpTinyNs.q (eff inpTinyNs) = 0 := by
    unfold newEfficiencyPercent newEfficiencyPercentRaw
    rw [ns_inpTinyNs_eq, show inpTinyNs.q = (9 : ℝ) from rfl]
    rw [if_neg (by norm_num), if_pos (by norm_num)]
    have hX : ((-8.84553e-3 : ℝ) + 7.9485e-2 * (1 / 10) - 4.0913e-3 * (1 / 10) ^ 2
        + 1.08499e-4 * (1 / 10) ^ 3 - 1.40755e-6 * (1 / 10) ^ 4 + 5.4971e-9 * (1 / 10) ^ 5
        + 4.07879e-11 * (1 / 10) ^ 6 - 2.66217e-13 * (1 / 10) ^ 7) * 100 < 0 := by
      norm_num
    rw [min_eq_right (by linarith)]
    exact max_eq_left (le_of_lt hX)
  have hsome : (sizePump inpTinyNs).newPumpPerformance =
      some (calculateNewPumpPerformance (ns inpTinyNs) inpTinyNs.q inpTinyNs.tdhm
        (impDia inpTinyNs) inpTinyNs.npsha inpTinyNs.n inpTinyNs.sg (eff inpTinyNs)) := by
    show (if (inpTinyNs.q > 20 ∧ inpTinyNs.q < 61 ∧ ns inpTinyNs < 20)
        ∨ (ns inpTinyNs < 18 ∧ inpTinyNs.q ≤ 20) then
        some (calculateNewPumpPerformance (ns inpTinyNs) inpTinyNs.q inpTinyNs.tdhm
          (impDia inpTinyNs) inpTinyNs.npsha inpTinyNs.n inpTinyNs.sg (eff inpTinyNs))
      else none) = _
    rw [if_pos]
    right
    constructor
    · rw [ns_inpTinyNs_eq]
      norm_num
    · show (9 : ℝ) ≤ 20
      norm_num
  refine ⟨by rw [hsome]; rfl, heffp, by rw [heffp]; norm_num, ?_⟩
  show (9 : ℝ) * 1 * 1 ≠ 0
  norm_num

end Pump
